import Mathlib

/-!
Shallow embedding of the mcp-miro server (a thin MCP adapter over the Miro
REST API) and verification of its specification claims.

The source is a single TypeScript file containing:
* startup credential resolution (`--token` flag, `MIRO_OAUTH_TOKEN` env var),
* a `MiroClient` class wrapping `fetch` against `https://api.miro.com/v2`,
* MCP request handlers: `ListResources`, `ReadResource`, `ListTools`,
  and a `CallTool` dispatcher switching on the tool name.

The network is modelled as a function from requests to responses; every
client operation returns the list of HTTP requests it issued together with
its result (`Except String` models a thrown `Error` with its message).
JavaScript-level behaviours that matter to the claims are modelled
explicitly: `||` treats the empty string as falsy, object destructuring
defaults fire when the property is absent, `JSON.stringify` drops
`undefined`-valued properties, and a template literal renders an undefined
variable as the string "undefined".
-/

/-- JSON values, used for request bodies and pass-through payloads.
Numbers are modelled as integers; the adapter never computes on them. -/
inductive Json where
  | null : Json
  | bool (b : Bool) : Json
  | num (n : Int) : Json
  | str (s : String) : Json
  | arr (elems : List Json) : Json
  | obj (fields : List (String × Json)) : Json

/-- `JSON.stringify` on an object literal drops properties whose value is
`undefined`; an object built from optional values keeps only the present
ones, in declaration order. -/
def Json.mkObj (fields : List (String × Option Json)) : Json :=
  Json.obj (fields.filterMap (fun p => p.2.map (fun v => (p.1, v))))

/-- JavaScript property read on a JSON object: the first binding of the key,
`none` when absent or when the value is not an object. -/
def Json.getField : Json → String → Option Json
  | Json.obj fields, k => (fields.find? (fun p => p.1 = k)).map (·.2)
  | _, _ => none

/-- One HTTP request as issued by the client: method, the path-plus-query
appended to the fixed base URL, the authorization header value, and the
optional JSON body. -/
structure HttpRequest where
  method : String
  path : String
  authorization : String
  body : Option Json

/-- The payload shapes the source's unchecked `as` casts expect from the
remote service, mirroring its interface declarations (`MiroBoard`,
`MiroBoardsResponse`, `MiroItem`, `MiroItemsResponse`) plus the two shapes
read only by `bulkCreateItems` (`{ data: MiroItem[] }` on success, read
with `result.data || []`, and `{ message?: string }` on failure). -/
structure MiroBoard where
  id : String
  name : String
  description : Option String

structure MiroBoardsResponse where
  data : List MiroBoard
  total : Nat
  size : Nat
  offset : Nat

/-- An item's fields beyond `id` and `type` are opaque pass-through data. -/
structure MiroItem where
  id : String
  type : String
  extra : List (String × Json)

structure MiroItemsResponse where
  data : List MiroItem
  cursor : Option String

/-- Success body of the bulk endpoint; `data` is optional because the code
guards the read with `result.data || []`. -/
structure BulkResponse where
  data : Option (List MiroItem)

/-- Error body read by `bulkCreateItems` on a non-ok response. -/
structure ApiErrorBody where
  message : Option String

/-- The parsed `response.json()` value, at the granularity the source reads
it (each call site casts the body to one of these shapes without runtime
validation). -/
inductive ApiPayload where
  | boards (r : MiroBoardsResponse)
  | items (r : MiroItemsResponse)
  | item (i : MiroItem)
  | bulk (r : BulkResponse)
  | err (e : ApiErrorBody)
  | other (j : Json)

/-- One HTTP response: `ok`, `status`, `statusText` as on a fetch
`Response`, plus the parsed JSON body. -/
structure HttpResponse where
  ok : Bool
  status : Nat
  statusText : String
  body : ApiPayload

/-- The remote service, modelled as a deterministic map from requests to
responses. -/
def Remote := HttpRequest → HttpResponse

instance : Inhabited MiroBoardsResponse := ⟨⟨[], 0, 0, 0⟩⟩
instance : Inhabited MiroItemsResponse := ⟨⟨[], none⟩⟩
instance : Inhabited MiroItem := ⟨⟨"", "", []⟩⟩
instance : Inhabited BulkResponse := ⟨⟨none⟩⟩
instance : Inhabited ApiErrorBody := ⟨⟨none⟩⟩

/-- The unchecked `as MiroBoardsResponse` cast: project the boards variant,
arbitrary junk otherwise (the source performs no runtime validation). -/
def ApiPayload.castBoards : ApiPayload → MiroBoardsResponse
  | ApiPayload.boards r => r
  | _ => default

/-- The unchecked `as MiroItemsResponse` cast. -/
def ApiPayload.castItems : ApiPayload → MiroItemsResponse
  | ApiPayload.items r => r
  | _ => default

/-- The unchecked `as Promise<MiroItem>` cast on creation endpoints. -/
def ApiPayload.castItem : ApiPayload → MiroItem
  | ApiPayload.item i => i
  | _ => default

/-- The unchecked `as { data: MiroItem[] }` cast in `bulkCreateItems`. -/
def ApiPayload.castBulk : ApiPayload → BulkResponse
  | ApiPayload.bulk r => r
  | _ => default

/-- The unchecked `as { message?: string }` cast on the bulk error body. -/
def ApiPayload.castErr : ApiPayload → ApiErrorBody
  | ApiPayload.err e => e
  | _ => default

/-- JavaScript `a || b` on a possibly-undefined string `a`: `b` when `a` is
undefined or the empty string (both falsy), otherwise `a`. -/
def jsOrStr (a : Option String) (b : String) : String :=
  match a with
  | some s => if s = "" then b else s
  | none => b

namespace MiroClient

/-- The request `fetchApi` builds: base URL plus `path`, given method,
bearer-token authorization header, optional JSON body. -/
def mkRequest (token : String) (path : String) (method : String)
    (body : Option Json) : HttpRequest :=
  { method := method
    path := path
    authorization := "Bearer " ++ token
    body := body }

/-- `MiroClient.fetchApi`: one fetch; on a non-ok response throw
`Miro API error: ${response.status} ${response.statusText}`, otherwise
return the parsed JSON body. The first component lists the network
requests issued. -/
def fetchApi (token : String) (remote : Remote) (path : String)
    (method : String := "GET") (body : Option Json := none) :
    List HttpRequest × Except String ApiPayload :=
  let req := mkRequest token path method body
  let response := remote req
  ([req],
    if response.ok then
      Except.ok response.body
    else
      Except.error
        ("Miro API error: " ++ toString response.status ++ " "
          ++ response.statusText))

/-- `MiroClient.getBoards`: GET `/boards`, return `response.data` (a thrown
transport error propagates through the `await`, modelled by `Except.map`). -/
def getBoards (token : String) (remote : Remote) :
    List HttpRequest × Except String (List MiroBoard) :=
  let (reqs, r) := fetchApi token remote "/boards"
  (reqs, r.map (fun payload => payload.castBoards.data))

/-- `MiroClient.getBoardItems`: GET `/boards/{boardId}/items?limit=50`,
return `response.data`. -/
def getBoardItems (token : String) (remote : Remote) (boardId : String) :
    List HttpRequest × Except String (List MiroItem) :=
  let (reqs, r) :=
    fetchApi token remote ("/boards/" ++ boardId ++ "/items?limit=50")
  (reqs, r.map (fun payload => payload.castItems.data))

/-- `MiroClient.createStickyNote`: POST `/boards/{boardId}/sticky_notes`
with the given body, return the created item. -/
def createStickyNote (token : String) (remote : Remote) (boardId : String)
    (data : Json) : List HttpRequest × Except String MiroItem :=
  let (reqs, r) :=
    fetchApi token remote ("/boards/" ++ boardId ++ "/sticky_notes")
      "POST" (some data)
  (reqs, r.map (fun payload => payload.castItem))

/-- `MiroClient.bulkCreateItems`: its own fetch (not `fetchApi`) to
POST `/boards/{boardId}/items/bulk` with body `JSON.stringify(items)`.
On a non-ok response it reads the error body and throws
`Miro API error: ${error.message || response.statusText}` (no numeric
status). On success it returns `result.data || []`. `items` is `any[]` in
the source; an absent (undefined) argument stringifies to no body. -/
def bulkCreateItems (token : String) (remote : Remote) (boardId : String)
    (items : Option (List Json)) :
    List HttpRequest × Except String (List MiroItem) :=
  let req : HttpRequest :=
    { method := "POST"
      path := "/boards/" ++ boardId ++ "/items/bulk"
      authorization := "Bearer " ++ token
      body := items.map Json.arr }
  let response := remote req
  ([req],
    if response.ok then
      Except.ok (response.body.castBulk.data.getD [])
    else
      Except.error
        ("Miro API error: "
          ++ jsOrStr response.body.castErr.message response.statusText))

/-- `MiroClient.getFrames`: GET `/boards/{boardId}/items?type=frame&limit=50`,
return `response.data`. -/
def getFrames (token : String) (remote : Remote) (boardId : String) :
    List HttpRequest × Except String (List MiroItem) :=
  let (reqs, r) :=
    fetchApi token remote
      ("/boards/" ++ boardId ++ "/items?type=frame&limit=50")
  (reqs, r.map (fun payload => payload.castItems.data))

/-- `MiroClient.getItemsInFrame`: GET
`/boards/{boardId}/items?parent_item_id={frameId}&limit=50`, return
`response.data`. -/
def getItemsInFrame (token : String) (remote : Remote) (boardId : String)
    (frameId : String) : List HttpRequest × Except String (List MiroItem) :=
  let (reqs, r) :=
    fetchApi token remote
      ("/boards/" ++ boardId ++ "/items?parent_item_id=" ++ frameId
        ++ "&limit=50")
  (reqs, r.map (fun payload => payload.castItems.data))

/-- `MiroClient.createShape`: POST `/boards/{boardId}/shapes` with the given
body, return the created item. -/
def createShape (token : String) (remote : Remote) (boardId : String)
    (data : Json) : List HttpRequest × Except String MiroItem :=
  let (reqs, r) :=
    fetchApi token remote ("/boards/" ++ boardId ++ "/shapes")
      "POST" (some data)
  (reqs, r.map (fun payload => payload.castItem))

end MiroClient

/-- The arguments object of a tool call (`request.params.arguments as any`).
Each field the dispatcher destructures is optional: `none` models an absent
(undefined) property, typed at the granularity the handlers read it. -/
structure ToolArgs where
  boardId : Option String := none
  content : Option String := none
  color : Option String := none
  x : Option Int := none
  y : Option Int := none
  items : Option (List Json) := none
  frameId : Option String := none
  shape : Option String := none
  style : Option Json := none
  position : Option Json := none
  geometry : Option Json := none

/-- A `CallTool` request: tool name plus arguments. -/
structure ToolRequest where
  name : String
  arguments : ToolArgs

/-- One entry of a tool result's `content` array. -/
structure ToolContent where
  type : String
  text : String

/-- The result envelope returned by the `CallTool` handler. -/
structure ToolResult where
  content : List ToolContent

/-- A template literal renders an undefined variable as "undefined". -/
def jsTemplate (a : Option String) : String := a.getD "undefined"

/-- The tool names declared by the `ListTools` handler's static catalog. -/
def toolCatalog : List String :=
  ["list_boards", "create_sticky_note", "bulk_create_items", "get_frames",
   "get_items_in_frame", "create_shape"]

/-- The `items` entry of the `bulk_create_items` input schema declares
`minItems: 1`. Declaration only: nothing in this code enforces it. -/
def bulkItemsSchemaMinItems : Nat := 1

/-- The `items` entry of the `bulk_create_items` input schema declares
`maxItems: 20`. Declaration only: nothing in this code enforces it. -/
def bulkItemsSchemaMaxItems : Nat := 20

/-- `JSON.stringify(value, null, 2)` as applied to fetched item lists by the
`get_frames`, `get_items_in_frame` and `ReadResource` handlers; the claims
never inspect this text, so the rendering is a fixed injective placeholder
of the item ids and types. -/
def stringifyItems (items : List MiroItem) : String :=
  "[" ++ String.intercalate ", "
    (items.map (fun i => "\x7bid: " ++ i.id ++ ", type: " ++ i.type
      ++ "\x7d"))
    ++ "]"

/-- The body the `create_sticky_note` handler builds:
`{data: {content}, style: {fillColor: color}, position: {x, y}}`. -/
def stickyNoteBody (content : Option String) (color : String) (x y : Int) :
    Json :=
  Json.obj
    [("data", Json.mkObj [("content", content.map Json.str)]),
     ("style", Json.obj [("fillColor", Json.str color)]),
     ("position", Json.obj [("x", Json.num x), ("y", Json.num y)])]

/-- The body the `create_shape` handler builds:
`{data: {shape, content}, style: style || {}, position: position || {x:0,y:0},
geometry: geometry || {width:200, height:200, rotation:0}}`. -/
def shapeBody (shape content : Option String) (style position geometry :
    Option Json) : Json :=
  Json.obj
    [("data", Json.mkObj
        [("shape", shape.map Json.str), ("content", content.map Json.str)]),
     ("style", style.getD (Json.obj [])),
     ("position", position.getD
        (Json.obj [("x", Json.num 0), ("y", Json.num 0)])),
     ("geometry", geometry.getD
        (Json.obj [("width", Json.num 200), ("height", Json.num 200),
                   ("rotation", Json.num 0)]))]

/-- The `CallTool` dispatcher: switch on `request.params.name`, destructure
the arguments (with the source's destructuring defaults), call the matching
client method, format the result; the default case throws
`Error("Unknown tool")`. Errors thrown by the client propagate unchanged.
The first component lists the network requests issued. -/
def handleToolCall (token : String) (remote : Remote) (req : ToolRequest) :
    List HttpRequest × Except String ToolResult :=
  if req.name = "list_boards" then
    let (reqs, r) := MiroClient.getBoards token remote
    (reqs, r.map (fun boards =>
      { content :=
          { type := "text"
            text := "Here are the available Miro boards:" } ::
          boards.map (fun b =>
            { type := "text"
              text := "Board ID: " ++ b.id ++ ", Name: " ++ b.name }) }))
  else if req.name = "create_sticky_note" then
    let boardId := req.arguments.boardId
    let color := req.arguments.color.getD "yellow"
    let x := req.arguments.x.getD 0
    let y := req.arguments.y.getD 0
    let (reqs, r) := MiroClient.createStickyNote token remote
      (jsTemplate boardId) (stickyNoteBody req.arguments.content color x y)
    (reqs, r.map (fun stickyNote =>
      { content :=
          [{ type := "text"
             text := "Created sticky note " ++ stickyNote.id
               ++ " on board " ++ jsTemplate boardId }] }))
  else if req.name = "bulk_create_items" then
    let boardId := req.arguments.boardId
    let (reqs, r) := MiroClient.bulkCreateItems token remote
      (jsTemplate boardId) req.arguments.items
    (reqs, r.map (fun createdItems =>
      { content :=
          [{ type := "text"
             text := "Created " ++ toString createdItems.length
               ++ " items on board " ++ jsTemplate boardId }] }))
  else if req.name = "get_frames" then
    let (reqs, r) := MiroClient.getFrames token remote
      (jsTemplate req.arguments.boardId)
    (reqs, r.map (fun frames =>
      { content := [{ type := "text", text := stringifyItems frames }] }))
  else if req.name = "get_items_in_frame" then
    let (reqs, r) := MiroClient.getItemsInFrame token remote
      (jsTemplate req.arguments.boardId) (jsTemplate req.arguments.frameId)
    (reqs, r.map (fun items =>
      { content := [{ type := "text", text := stringifyItems items }] }))
  else if req.name = "create_shape" then
    let boardId := req.arguments.boardId
    let shape := req.arguments.shape
    let (reqs, r) := MiroClient.createShape token remote (jsTemplate boardId)
      (shapeBody shape req.arguments.content req.arguments.style
        req.arguments.position req.arguments.geometry)
    (reqs, r.map (fun shapeItem =>
      { content :=
          [{ type := "text"
             text := "Created " ++ jsTemplate shape ++ " shape with ID "
               ++ shapeItem.id ++ " on board " ++ jsTemplate boardId }] }))
  else
    ([], Except.error "Unknown tool")

/-- JavaScript `s.startsWith(p)`: a character-level prefix test. -/
def strStartsWith (s p : String) : Bool :=
  p.data.isPrefixOf s.data

/-- The result of the WHATWG `new URL(uri)` constructor, at the granularity
the `ReadResource` handler reads it (`url.pathname`). The parser itself is
the platform's, external to this repository; handlers below take its
outcome as a parameter, `none` modelling the `TypeError` it throws on an
unparseable string. -/
structure UrlModel where
  pathname : String

/-- One entry of a `ReadResource` result's `contents` array. -/
structure ResourceContent where
  uri : String
  mimeType : String
  text : String

/-- The `ReadResource` handler: `new URL(request.params.uri)` first (so an
unparseable URI throws the parse error before anything else), then reject
URIs not starting with `miro://board/` (JavaScript's `String.startsWith`,
modelled as the character-level `strStartsWith`), then fetch the
board's items with `boardId = url.pathname.substring(1)` and return them
serialized. -/
def handleReadResource (token : String) (remote : Remote) (uri : String)
    (parsed : Option UrlModel) :
    List HttpRequest × Except String (List ResourceContent) :=
  match parsed with
  | none => ([], Except.error "Invalid URL")
  | some url =>
    if ¬ strStartsWith uri "miro://board/" then
      ([], Except.error
        "Invalid Miro resource URI - must start with miro://board/")
    else
      let boardId := url.pathname.drop 1
      let (reqs, r) := MiroClient.getBoardItems token remote boardId
      (reqs, r.map (fun items =>
        [{ uri := uri
           mimeType := "application/json"
           text := stringifyItems items }]))

/-- `const oauthToken = (argv.token as string) || process.env.MIRO_OAUTH_TOKEN`:
the flag when present and not the empty string (JavaScript `||` falsiness),
otherwise the environment variable (itself possibly undefined). -/
def resolveOauthToken (flagToken envToken : Option String) : Option String :=
  match flagToken with
  | some s => if s = "" then envToken else some s
  | none => envToken

/-- Startup: `if (!oauthToken) { console.error(...); process.exit(1); }` —
exit code 1 when the resolved token is undefined or empty, otherwise the
process proceeds holding the token. -/
def startup (flagToken envToken : Option String) : Except Nat String :=
  match resolveOauthToken flagToken envToken with
  | some s => if s = "" then Except.error 1 else Except.ok s
  | none => Except.error 1

/-- `sub` occurs verbatim inside `s`. -/
def strContains (s sub : String) : Prop :=
  sub.data <:+: s.data

instance (s sub : String) : Decidable (strContains s sub) :=
  inferInstanceAs (Decidable (sub.data <:+: s.data))

/-- A string contains its final append operand verbatim. -/
theorem strContains_append_right (p q : String) : strContains (p ++ q) q :=
  ⟨p.data, [], by simp [String.data_append]⟩

/-- Concrete remotes used to instantiate the hypotheses of the theorems
below on closed inputs. Each returns the same response to every request. -/
def bulkOkEmptyRemote : Remote :=
  fun _ => ⟨true, 200, "OK", ApiPayload.bulk ⟨some []⟩⟩

def unauthorizedRemote : Remote :=
  fun _ => ⟨false, 401, "Unauthorized", ApiPayload.err ⟨some "Invalid token"⟩⟩

def stickyOkRemote : Remote :=
  fun _ => ⟨true, 201, "Created", ApiPayload.item ⟨"note1", "sticky_note", []⟩⟩

def boardsOkRemote : Remote :=
  fun _ => ⟨true, 200, "OK", ApiPayload.boards
    ⟨[⟨"b1", "Board One", none⟩, ⟨"b2", "Board Two", some "second"⟩],
      2, 2, 0⟩⟩

def itemsPageRemote : Remote :=
  fun _ => ⟨true, 200, "OK", ApiPayload.items
    ⟨[⟨"i1", "shape", []⟩, ⟨"i2", "sticky_note", []⟩], some "cursor-next"⟩⟩

def bulkNoDataRemote : Remote :=
  fun _ => ⟨true, 201, "Created", ApiPayload.bulk ⟨none⟩⟩

def stubRemote : Remote :=
  fun _ => ⟨true, 200, "OK", ApiPayload.other Json.null⟩

/-- C1, counterexample: invoking `bulk_create_items` with an empty items
array does not fail with a validation error and does make a network call —
the handler forwards the empty batch in one request to the bulk endpoint
and reports success; likewise a 21-item batch is forwarded in one request.
This refutes the claim that sequences of length 0 or more than 20 are
rejected before any network call. -/
theorem bulk_create_items_empty_input_hits_network :
    (handleToolCall "t" bulkOkEmptyRemote
      ⟨"bulk_create_items", { boardId := some "b", items := some [] }⟩).1.length = 1
    ∧ (handleToolCall "t" bulkOkEmptyRemote
        ⟨"bulk_create_items", { boardId := some "b", items := some [] }⟩).2 =
      Except.ok { content :=
        [{ type := "text", text := "Created 0 items on board b" }] }
    ∧ (handleToolCall "t" bulkOkEmptyRemote
        ⟨"bulk_create_items",
          { boardId := some "b",
            items := some (List.replicate 21 Json.null) }⟩).1.length = 1 :=
  ⟨rfl, rfl, rfl⟩

/-- C1, amended: the `bulk_create_items` tool's declared input schema
advertises `minItems` 1 and `maxItems` 20, but the dispatcher performs no
length validation: every invocation, whatever the number of items
(including 0 and more than 20), issues exactly one request to the remote
bulk endpoint carrying the whole sequence as its body. -/
theorem bulk_create_items_forwards_any_length (token : String)
    (remote : Remote) (a : ToolArgs) (its : List Json)
    (h : a.items = some its) :
    (handleToolCall token remote ⟨"bulk_create_items", a⟩).1 =
      [{ method := "POST"
         path := "/boards/" ++ jsTemplate a.boardId ++ "/items/bulk"
         authorization := "Bearer " ++ token
         body := some (Json.arr its) }]
    ∧ bulkItemsSchemaMinItems = 1 ∧ bulkItemsSchemaMaxItems = 20 := by
  refine ⟨?_, rfl, rfl⟩
  simp [handleToolCall, MiroClient.bulkCreateItems, h]

/-- C1, witness for the amended theorem at a 21-item input. -/
theorem bulk_create_items_forwards_any_length_witness :
    (handleToolCall "t" stubRemote
      ⟨"bulk_create_items",
        { boardId := some "b",
          items := some (List.replicate 21 Json.null) }⟩).1 =
      [{ method := "POST"
         path := "/boards/b/items/bulk"
         authorization := "Bearer t"
         body := some (Json.arr (List.replicate 21 Json.null)) }]
    ∧ bulkItemsSchemaMinItems = 1 ∧ bulkItemsSchemaMaxItems = 20 :=
  bulk_create_items_forwards_any_length "t" stubRemote
    { boardId := some "b", items := some (List.replicate 21 Json.null) }
    (List.replicate 21 Json.null) rfl

/-- C2, counterexample: a 401 response to `bulkCreateItems` whose error
body carries `message: "Invalid token"` surfaces as the error
`Miro API error: Invalid token`, which does not include the numeric HTTP
status 401 — refuting "for every Client operation ... the message includes
the numeric HTTP status". -/
theorem bulk_error_message_omits_numeric_status :
    (MiroClient.bulkCreateItems "t" unauthorizedRemote "b" (some [])).2 =
      Except.error "Miro API error: Invalid token"
    ∧ ¬ strContains "Miro API error: Invalid token" "401" :=
  ⟨rfl, by decide⟩

/-- C2, amended: every Client operation performs exactly one network
attempt regardless of outcome. On a non-success response, the six
operations routed through `fetchApi` fail with
`Miro API error: <status> <statusText>`, whose message includes the
numeric HTTP status; `bulkCreateItems` instead fails with
`Miro API error: <body message or statusText>`, which need not include
the numeric status. -/
theorem client_single_attempt_error_status (token boardId frameId : String)
    (d : Json) (its : Option (List Json)) (remote remoteA : Remote)
    (resp : HttpResponse) (e : ApiErrorBody)
    (hconst : ∀ q, remoteA q = resp) (hfail : resp.ok = false)
    (hbody : resp.body = ApiPayload.err e) :
    ((MiroClient.getBoards token remote).1.length = 1
      ∧ (MiroClient.getBoardItems token remote boardId).1.length = 1
      ∧ (MiroClient.createStickyNote token remote boardId d).1.length = 1
      ∧ (MiroClient.bulkCreateItems token remote boardId its).1.length = 1
      ∧ (MiroClient.getFrames token remote boardId).1.length = 1
      ∧ (MiroClient.getItemsInFrame token remote boardId frameId).1.length = 1
      ∧ (MiroClient.createShape token remote boardId d).1.length = 1)
    ∧ (strContains
        ("Miro API error: " ++ toString resp.status ++ " " ++ resp.statusText)
        (toString resp.status)
      ∧ (MiroClient.getBoards token remoteA).2 = Except.error
          ("Miro API error: " ++ toString resp.status ++ " " ++ resp.statusText)
      ∧ (MiroClient.getBoardItems token remoteA boardId).2 = Except.error
          ("Miro API error: " ++ toString resp.status ++ " " ++ resp.statusText)
      ∧ (MiroClient.createStickyNote token remoteA boardId d).2 = Except.error
          ("Miro API error: " ++ toString resp.status ++ " " ++ resp.statusText)
      ∧ (MiroClient.getFrames token remoteA boardId).2 = Except.error
          ("Miro API error: " ++ toString resp.status ++ " " ++ resp.statusText)
      ∧ (MiroClient.getItemsInFrame token remoteA boardId frameId).2 =
          Except.error
          ("Miro API error: " ++ toString resp.status ++ " " ++ resp.statusText)
      ∧ (MiroClient.createShape token remoteA boardId d).2 = Except.error
          ("Miro API error: " ++ toString resp.status ++ " " ++ resp.statusText))
    ∧ (MiroClient.bulkCreateItems token remoteA boardId its).2 =
        Except.error
          ("Miro API error: " ++ jsOrStr e.message resp.statusText) := by
  refine ⟨⟨rfl, rfl, rfl, rfl, rfl, rfl, rfl⟩,
    ⟨⟨"Miro API error: ".data, (" " ++ resp.statusText).data,
      by simp [String.data_append]⟩, ?_, ?_, ?_, ?_, ?_, ?_⟩, ?_⟩
  · simp [MiroClient.getBoards, MiroClient.fetchApi, hconst, hfail, Except.map]
  · simp [MiroClient.getBoardItems, MiroClient.fetchApi, hconst, hfail,
      Except.map]
  · simp [MiroClient.createStickyNote, MiroClient.fetchApi, hconst, hfail,
      Except.map]
  · simp [MiroClient.getFrames, MiroClient.fetchApi, hconst, hfail, Except.map]
  · simp [MiroClient.getItemsInFrame, MiroClient.fetchApi, hconst, hfail,
      Except.map]
  · simp [MiroClient.createShape, MiroClient.fetchApi, hconst, hfail,
      Except.map]
  · simp [MiroClient.bulkCreateItems, hconst, hfail, hbody,
      ApiPayload.castErr]

/-- C2, witness for the amended theorem on a constant 401 remote. -/
theorem client_single_attempt_error_status_witness :
    ((MiroClient.getBoards "t" unauthorizedRemote).1.length = 1
      ∧ (MiroClient.getBoardItems "t" unauthorizedRemote "b").1.length = 1
      ∧ (MiroClient.createStickyNote "t" unauthorizedRemote "b"
          Json.null).1.length = 1
      ∧ (MiroClient.bulkCreateItems "t" unauthorizedRemote "b"
          (some [])).1.length = 1
      ∧ (MiroClient.getFrames "t" unauthorizedRemote "b").1.length = 1
      ∧ (MiroClient.getItemsInFrame "t" unauthorizedRemote "b"
          "f").1.length = 1
      ∧ (MiroClient.createShape "t" unauthorizedRemote "b"
          Json.null).1.length = 1)
    ∧ (strContains "Miro API error: 401 Unauthorized" "401"
      ∧ (MiroClient.getBoards "t" unauthorizedRemote).2 =
          Except.error "Miro API error: 401 Unauthorized"
      ∧ (MiroClient.getBoardItems "t" unauthorizedRemote "b").2 =
          Except.error "Miro API error: 401 Unauthorized"
      ∧ (MiroClient.createStickyNote "t" unauthorizedRemote "b" Json.null).2 =
          Except.error "Miro API error: 401 Unauthorized"
      ∧ (MiroClient.getFrames "t" unauthorizedRemote "b").2 =
          Except.error "Miro API error: 401 Unauthorized"
      ∧ (MiroClient.getItemsInFrame "t" unauthorizedRemote "b" "f").2 =
          Except.error "Miro API error: 401 Unauthorized"
      ∧ (MiroClient.createShape "t" unauthorizedRemote "b" Json.null).2 =
          Except.error "Miro API error: 401 Unauthorized")
    ∧ (MiroClient.bulkCreateItems "t" unauthorizedRemote "b" (some [])).2 =
        Except.error "Miro API error: Invalid token" :=
  client_single_attempt_error_status "t" "b" "f" Json.null (some [])
    unauthorizedRemote unauthorizedRemote
    ⟨false, 401, "Unauthorized", ApiPayload.err ⟨some "Invalid token"⟩⟩
    ⟨some "Invalid token"⟩ (fun _ => rfl) rfl rfl

/-- C3: `create_sticky_note` with `color`, `x`, `y` absent sends a request
whose body carries `style.fillColor = "yellow"` and `position = (0, 0)`;
on success the confirmation text contains the created item's id verbatim. -/
theorem create_sticky_note_defaults (token b c : String) (remote : Remote)
    (i : MiroItem)
    (hok : (remote (MiroClient.mkRequest token
      ("/boards/" ++ b ++ "/sticky_notes") "POST"
      (some (stickyNoteBody (some c) "yellow" 0 0)))).ok = true)
    (hbody : (remote (MiroClient.mkRequest token
      ("/boards/" ++ b ++ "/sticky_notes") "POST"
      (some (stickyNoteBody (some c) "yellow" 0 0)))).body =
        ApiPayload.item i) :
    handleToolCall token remote
      ⟨"create_sticky_note", { boardId := some b, content := some c }⟩ =
      ([MiroClient.mkRequest token ("/boards/" ++ b ++ "/sticky_notes")
          "POST" (some (stickyNoteBody (some c) "yellow" 0 0))],
       Except.ok { content :=
         [{ type := "text"
            text := "Created sticky note " ++ i.id ++ " on board " ++ b }] })
    ∧ (stickyNoteBody (some c) "yellow" 0 0).getField "style" =
        some (Json.obj [("fillColor", Json.str "yellow")])
    ∧ (stickyNoteBody (some c) "yellow" 0 0).getField "position" =
        some (Json.obj [("x", Json.num 0), ("y", Json.num 0)])
    ∧ ∃ pre post,
        "Created sticky note " ++ i.id ++ " on board " ++ b =
          pre ++ i.id ++ post := by
  refine ⟨?_, rfl, rfl,
    ⟨"Created sticky note ", " on board " ++ b,
      by simp [String.append_assoc]⟩⟩
  simp [handleToolCall, MiroClient.createStickyNote, MiroClient.fetchApi,
    jsTemplate, hok, hbody, ApiPayload.castItem, Except.map]

/-- C3, witness: a concrete successful sticky-note creation. -/
theorem create_sticky_note_defaults_witness :
    handleToolCall "t" stickyOkRemote
      ⟨"create_sticky_note", { boardId := some "b1", content := some "hi" }⟩ =
      ([MiroClient.mkRequest "t" "/boards/b1/sticky_notes" "POST"
          (some (stickyNoteBody (some "hi") "yellow" 0 0))],
       Except.ok { content :=
         [{ type := "text"
            text := "Created sticky note note1 on board b1" }] })
    ∧ (stickyNoteBody (some "hi") "yellow" 0 0).getField "style" =
        some (Json.obj [("fillColor", Json.str "yellow")])
    ∧ (stickyNoteBody (some "hi") "yellow" 0 0).getField "position" =
        some (Json.obj [("x", Json.num 0), ("y", Json.num 0)])
    ∧ ∃ pre post,
        "Created sticky note note1 on board b1" = pre ++ "note1" ++ post :=
  create_sticky_note_defaults "t" "b1" "hi" stickyOkRemote
    ⟨"note1", "sticky_note", []⟩ rfl rfl

/-- C4: every `create_shape` invocation issues one request to the shapes
endpoint; independently, where `position` is absent that request's body
carries position `(0, 0)`, and where `geometry` is absent it carries
width 200, height 200, rotation 0 (the two defaults are decided
separately by `position || ...` and `geometry || ...`). -/
theorem create_shape_defaults (token : String) (remote : Remote)
    (a : ToolArgs) :
    (handleToolCall token remote ⟨"create_shape", a⟩).1 =
      [MiroClient.mkRequest token
        ("/boards/" ++ jsTemplate a.boardId ++ "/shapes") "POST"
        (some (shapeBody a.shape a.content a.style a.position a.geometry))]
    ∧ (a.position = none →
        (shapeBody a.shape a.content a.style a.position
            a.geometry).getField "position" =
          some (Json.obj [("x", Json.num 0), ("y", Json.num 0)]))
    ∧ (a.geometry = none →
        (shapeBody a.shape a.content a.style a.position
            a.geometry).getField "geometry" =
          some (Json.obj [("width", Json.num 200), ("height", Json.num 200),
            ("rotation", Json.num 0)])) := by
  refine ⟨?_, fun hpos => ?_, fun hgeom => ?_⟩
  · simp [handleToolCall, MiroClient.createShape, MiroClient.fetchApi]
  · rw [hpos]
    rfl
  · rw [hgeom]
    rfl

/-- C4, witness: one `create_shape` call with `position` absent but
`geometry` supplied, and one with `geometry` absent but `position`
supplied; each default fires independently, and each call issues its one
request to the shapes endpoint. -/
theorem create_shape_defaults_witness :
    ((handleToolCall "t" stubRemote
      ⟨"create_shape",
        { boardId := some "b1", shape := some "circle",
          geometry := some (Json.obj [("width", Json.num 10),
            ("height", Json.num 20), ("rotation", Json.num 0)]) }⟩).1 =
      [MiroClient.mkRequest "t" "/boards/b1/shapes" "POST"
        (some (shapeBody (some "circle") none none none
          (some (Json.obj [("width", Json.num 10), ("height", Json.num 20),
            ("rotation", Json.num 0)]))))]
    ∧ (shapeBody (some "circle") none none none
        (some (Json.obj [("width", Json.num 10), ("height", Json.num 20),
          ("rotation", Json.num 0)]))).getField "position" =
        some (Json.obj [("x", Json.num 0), ("y", Json.num 0)]))
    ∧ (shapeBody (some "circle") none none
        (some (Json.obj [("x", Json.num 5), ("y", Json.num 6)]))
        none).getField "geometry" =
        some (Json.obj [("width", Json.num 200), ("height", Json.num 200),
          ("rotation", Json.num 0)]) :=
  ⟨⟨(create_shape_defaults "t" stubRemote
      { boardId := some "b1", shape := some "circle",
        geometry := some (Json.obj [("width", Json.num 10),
          ("height", Json.num 20), ("rotation", Json.num 0)]) }).1,
    (create_shape_defaults "t" stubRemote
      { boardId := some "b1", shape := some "circle",
        geometry := some (Json.obj [("width", Json.num 10),
          ("height", Json.num 20), ("rotation", Json.num 0)]) }).2.1 rfl⟩,
   (create_shape_defaults "t" stubRemote
      { boardId := some "b1", shape := some "circle",
        position := some (Json.obj [("x", Json.num 5),
          ("y", Json.num 6)]) }).2.2 rfl⟩

/-- C5: an operation name outside the static catalog is rejected with the
fixed error `Unknown tool`, surfaced to the caller as a failed result, with
no network call made; the dispatcher is a pure function of the request, so
subsequent operations are handled unaffected. -/
theorem unknown_tool_rejected (token : String) (remote : Remote)
    (req : ToolRequest) (h : req.name ∉ toolCatalog) :
    handleToolCall token remote req = ([], Except.error "Unknown tool") := by
  simp only [toolCatalog, List.mem_cons, List.not_mem_nil, or_false,
    not_or] at h
  obtain ⟨h1, h2, h3, h4, h5, h6⟩ := h
  simp [handleToolCall, h1, h2, h3, h4, h5, h6]

/-- C5, witness: a concrete unknown tool name. -/
theorem unknown_tool_rejected_witness :
    handleToolCall "t" stubRemote ⟨"delete_board", {}⟩ =
      ([], Except.error "Unknown tool") :=
  unknown_tool_rejected "t" stubRemote ⟨"delete_board", {}⟩ (by decide)

/-- C6: on a successful `list_boards` call the output is exactly the header
line followed by one `Board ID: <id>, Name: <name>` line per board the
remote returned, in the same order — no board omitted, duplicated, or
added. -/
theorem list_boards_exact (token : String) (remote : Remote)
    (r : MiroBoardsResponse)
    (hok : (remote (MiroClient.mkRequest token "/boards" "GET" none)).ok =
      true)
    (hbody : (remote (MiroClient.mkRequest token "/boards" "GET" none)).body =
      ApiPayload.boards r) :
    (handleToolCall token remote ⟨"list_boards", {}⟩).2 =
      Except.ok { content :=
        { type := "text", text := "Here are the available Miro boards:" } ::
        r.data.map (fun b =>
          { type := "text"
            text := "Board ID: " ++ b.id ++ ", Name: " ++ b.name }) } := by
  simp [handleToolCall, MiroClient.getBoards, MiroClient.fetchApi,
    hok, hbody, ApiPayload.castBoards, Except.map]

/-- C6, witness: a remote reporting two boards yields exactly those two
lines after the header, in order. -/
theorem list_boards_exact_witness :
    (handleToolCall "t" boardsOkRemote ⟨"list_boards", {}⟩).2 =
      Except.ok { content :=
        [{ type := "text", text := "Here are the available Miro boards:" },
         { type := "text", text := "Board ID: b1, Name: Board One" },
         { type := "text", text := "Board ID: b2, Name: Board Two" }] } :=
  list_boards_exact "t" boardsOkRemote
    ⟨[⟨"b1", "Board One", none⟩, ⟨"b2", "Board Two", some "second"⟩], 2, 2, 0⟩
    rfl rfl

/-- C7: the command-line flag takes precedence over the environment
variable when both supply a (nonempty) credential; either alone is used;
with neither supplied, startup fails with exit code 1 (nonzero) before any
operation is served. -/
theorem startup_token_precedence :
    (∀ f e, f ≠ "" → startup (some f) e = Except.ok f)
    ∧ (∀ e, e ≠ "" → startup none (some e) = Except.ok e)
    ∧ startup none none = Except.error 1
    ∧ (1 : Nat) ≠ 0 := by
  refine ⟨fun f e hf => ?_, fun e he => ?_, rfl, one_ne_zero⟩
  · simp [startup, resolveOauthToken, hf]
  · simp [startup, resolveOauthToken, he]

/-- C7, witness: concrete flag/env combinations. -/
theorem startup_token_precedence_witness :
    startup (some "cli-tok") (some "env-tok") = Except.ok "cli-tok"
    ∧ startup (some "cli-tok") none = Except.ok "cli-tok"
    ∧ startup none (some "env-tok") = Except.ok "env-tok"
    ∧ startup none none = Except.error 1 :=
  ⟨startup_token_precedence.1 "cli-tok" (some "env-tok") (by decide),
   startup_token_precedence.1 "cli-tok" none (by decide),
   startup_token_precedence.2.1 "env-tok" (by decide),
   startup_token_precedence.2.2.1⟩

/-- C8: a `ReadResource` URI is parsed by `new URL` first (an unparseable
string fails with the parse error); a parseable URI not starting with
`miro://board/` is rejected with the invalid-URI error and no network
call; a conforming URI reaches the Client with the URL's pathname minus
its leading slash as the board id, in the single items request issued. -/
theorem read_resource_uri_handling (token uri : String) (remote : Remote)
    (u : UrlModel) :
    (¬ strStartsWith uri "miro://board/" →
      handleReadResource token remote uri (some u) =
        ([], Except.error
          "Invalid Miro resource URI - must start with miro://board/"))
    ∧ (strStartsWith uri "miro://board/" →
      (handleReadResource token remote uri (some u)).1 =
        [MiroClient.mkRequest token
          ("/boards/" ++ u.pathname.drop 1 ++ "/items?limit=50")
          "GET" none])
    ∧ handleReadResource token remote uri none =
        ([], Except.error "Invalid URL") := by
  refine ⟨fun h => ?_, fun h => ?_, rfl⟩
  · simp [handleReadResource, h]
  · simp [handleReadResource, h, MiroClient.getBoardItems,
      MiroClient.fetchApi]

/-- C8, witness: a non-conforming parseable URI is rejected; a conforming
URI `miro://board/abc123` (WHATWG pathname `/abc123`) queries board id
`abc123`; an unparseable URI fails with the parse error. -/
theorem read_resource_uri_handling_witness :
    handleReadResource "t" stubRemote "https://example.com"
      (some ⟨"/"⟩) =
      ([], Except.error
        "Invalid Miro resource URI - must start with miro://board/")
    ∧ (handleReadResource "t" stubRemote "miro://board/abc123"
        (some ⟨"/abc123"⟩)).1 =
      [MiroClient.mkRequest "t" "/boards/abc123/items?limit=50" "GET" none]
    ∧ handleReadResource "t" stubRemote "miro://board/abc123" none =
        ([], Except.error "Invalid URL") :=
  ⟨(read_resource_uri_handling "t" "https://example.com" stubRemote
      ⟨"/"⟩).1 (by decide),
   (read_resource_uri_handling "t" "miro://board/abc123" stubRemote
      ⟨"/abc123"⟩).2.1 (by decide),
   (read_resource_uri_handling "t" "miro://board/abc123" stubRemote
      ⟨"/abc123"⟩).2.2⟩

/-- C9: every item-listing read (board items, frames, items in a frame)
issues exactly one request whose query carries `limit=50` and returns
exactly the first page's `data` — no cursor follow-up is made even when
the response carries a cursor. -/
theorem item_reads_limit50_single_page (token b f : String)
    (remote : Remote) (r : MiroItemsResponse) (resp : HttpResponse)
    (hconst : ∀ q, remote q = resp) (hok : resp.ok = true)
    (hbody : resp.body = ApiPayload.items r) :
    ((MiroClient.getBoardItems token remote b).1 =
        [MiroClient.mkRequest token ("/boards/" ++ b ++ "/items?limit=50")
          "GET" none]
      ∧ (MiroClient.getBoardItems token remote b).2 = Except.ok r.data
      ∧ strContains ("/boards/" ++ b ++ "/items?limit=50") "limit=50")
    ∧ ((MiroClient.getFrames token remote b).1 =
        [MiroClient.mkRequest token
          ("/boards/" ++ b ++ "/items?type=frame&limit=50") "GET" none]
      ∧ (MiroClient.getFrames token remote b).2 = Except.ok r.data
      ∧ strContains ("/boards/" ++ b ++ "/items?type=frame&limit=50")
          "limit=50")
    ∧ ((MiroClient.getItemsInFrame token remote b f).1 =
        [MiroClient.mkRequest token
          ("/boards/" ++ b ++ "/items?parent_item_id=" ++ f ++ "&limit=50")
          "GET" none]
      ∧ (MiroClient.getItemsInFrame token remote b f).2 = Except.ok r.data
      ∧ strContains
          ("/boards/" ++ b ++ "/items?parent_item_id=" ++ f ++ "&limit=50")
          "limit=50") := by
  refine ⟨⟨rfl, ?_, ?_⟩, ⟨rfl, ?_, ?_⟩, ⟨rfl, ?_, ?_⟩⟩
  · simp [MiroClient.getBoardItems, MiroClient.fetchApi, hconst, hok, hbody,
      ApiPayload.castItems, Except.map]
  · have e : "/items?limit=50" = "/items?" ++ "limit=50" := rfl
    rw [e, ← String.append_assoc]
    exact strContains_append_right _ _
  · simp [MiroClient.getFrames, MiroClient.fetchApi, hconst, hok, hbody,
      ApiPayload.castItems, Except.map]
  · have e : "/items?type=frame&limit=50" =
        "/items?type=frame&" ++ "limit=50" := rfl
    rw [e, ← String.append_assoc]
    exact strContains_append_right _ _
  · simp [MiroClient.getItemsInFrame, MiroClient.fetchApi, hconst, hok, hbody,
      ApiPayload.castItems, Except.map]
  · have e : "&limit=50" = "&" ++ "limit=50" := rfl
    rw [e, ← String.append_assoc]
    exact strContains_append_right _ _

/-- C9, witness: a remote whose single page has two items and a pending
cursor; each read issues exactly its one `limit=50` request and returns
the page unchanged. -/
theorem item_reads_limit50_single_page_witness :
    ((MiroClient.getBoardItems "t" itemsPageRemote "b1").1 =
        [MiroClient.mkRequest "t" "/boards/b1/items?limit=50" "GET" none]
      ∧ (MiroClient.getBoardItems "t" itemsPageRemote "b1").2 =
          Except.ok [⟨"i1", "shape", []⟩, ⟨"i2", "sticky_note", []⟩]
      ∧ strContains "/boards/b1/items?limit=50" "limit=50")
    ∧ ((MiroClient.getFrames "t" itemsPageRemote "b1").1 =
        [MiroClient.mkRequest "t" "/boards/b1/items?type=frame&limit=50"
          "GET" none]
      ∧ (MiroClient.getFrames "t" itemsPageRemote "b1").2 =
          Except.ok [⟨"i1", "shape", []⟩, ⟨"i2", "sticky_note", []⟩]
      ∧ strContains "/boards/b1/items?type=frame&limit=50" "limit=50")
    ∧ ((MiroClient.getItemsInFrame "t" itemsPageRemote "b1" "F1").1 =
        [MiroClient.mkRequest "t"
          "/boards/b1/items?parent_item_id=F1&limit=50" "GET" none]
      ∧ (MiroClient.getItemsInFrame "t" itemsPageRemote "b1" "F1").2 =
          Except.ok [⟨"i1", "shape", []⟩, ⟨"i2", "sticky_note", []⟩]
      ∧ strContains "/boards/b1/items?parent_item_id=F1&limit=50"
          "limit=50") :=
  item_reads_limit50_single_page "t" "b1" "F1" itemsPageRemote
    ⟨[⟨"i1", "shape", []⟩, ⟨"i2", "sticky_note", []⟩], some "cursor-next"⟩
    ⟨true, 200, "OK", ApiPayload.items
      ⟨[⟨"i1", "shape", []⟩, ⟨"i2", "sticky_note", []⟩],
        some "cursor-next"⟩⟩
    (fun _ => rfl) rfl rfl

/-- C10: when the remote answers the bulk request successfully but with a
body lacking the `data` field, `bulkCreateItems` returns the empty list
(via `result.data || []`) and the tool's confirmation reports 0 created
items even though the remote reported success. -/
theorem bulk_missing_data_reports_zero (token b : String) (remote : Remote)
    (its : List Json) (resp : HttpResponse)
    (hconst : ∀ q, remote q = resp) (hok : resp.ok = true)
    (hbody : resp.body = ApiPayload.bulk ⟨none⟩) :
    (MiroClient.bulkCreateItems token remote b (some its)).2 = Except.ok []
    ∧ (handleToolCall token remote
        ⟨"bulk_create_items", { boardId := some b, items := some its }⟩).2 =
      Except.ok { content :=
        [{ type := "text", text := "Created 0 items on board " ++ b }] } := by
  constructor
  · simp [MiroClient.bulkCreateItems, hconst, hok, hbody,
      ApiPayload.castBulk]
  · simp [handleToolCall, MiroClient.bulkCreateItems, hconst, hok, hbody,
      ApiPayload.castBulk, jsTemplate, Except.map]
    rfl

/-- C10, witness: a concrete ok bulk response without a `data` field. -/
theorem bulk_missing_data_reports_zero_witness :
    (MiroClient.bulkCreateItems "t" bulkNoDataRemote "b9"
      (some [Json.obj [("type", Json.str "sticky_note")]])).2 = Except.ok []
    ∧ (handleToolCall "t" bulkNoDataRemote
        ⟨"bulk_create_items",
          { boardId := some "b9",
            items := some [Json.obj [("type", Json.str "sticky_note")]] }⟩).2 =
      Except.ok { content :=
        [{ type := "text", text := "Created 0 items on board b9" }] } :=
  bulk_missing_data_reports_zero "t" "b9" bulkNoDataRemote
    [Json.obj [("type", Json.str "sticky_note")]]
    ⟨true, 201, "Created", ApiPayload.bulk ⟨none⟩⟩ (fun _ => rfl) rfl rfl
